import Mathlib

/-!
Shallow embedding of the utility-function library in `src/index.js`.

JavaScript values are modelled by the inductive type `JSVal`; JS numbers are
modelled as rationals (`ℚ`), abstracting from IEEE-754 precision and overflow.
Functions that can throw are embedded in `Except String`, the error string
being the thrown message; property access `v[k]` is embedded by `getPropE`,
which errors (a TypeError in JS) exactly on `null`/`undefined` receivers and
yields `undefined` for a missing key or a primitive receiver.
-/

/-- A JavaScript runtime value, as far as the library under study observes it:
`undefined`, `null`, numbers, strings, booleans, and plain objects given as
association lists from property names to values. -/
inductive JSVal : Type where
  | undefined : JSVal
  | null : JSVal
  | num : ℚ → JSVal
  | str : String → JSVal
  | bool : Bool → JSVal
  | obj : List (String × JSVal) → JSVal

namespace JSVal

/-- `v` is nullish (`null` or `undefined`), the test performed by `??` and `?.`. -/
def isNullish : JSVal → Bool
  | .null => true
  | .undefined => true
  | _ => false

/-- JS property access `v[k]` as the library can trigger it: a TypeError
(modelled as `Except.error`) on a nullish receiver, the stored value (or
`undefined` when the key is missing) on an object, and `undefined` on any
other primitive receiver. -/
def getPropE (v : JSVal) (key : String) : Except String JSVal :=
  match v with
  | .null => .error "TypeError"
  | .undefined => .error "TypeError"
  | .obj fields => .ok ((fields.lookup key).getD .undefined)
  | _ => .ok .undefined

end JSVal

/-- `add(a, b)` from `src/index.js`: `return a + b;`. -/
def add (a b : ℚ) : ℚ := a + b

/-- `multiply(a, b)` from `src/index.js`: `return a * b;`. -/
def multiply (a b : ℚ) : ℚ := a * b

/-- The message thrown by `factorial` on negative input. -/
def factorialErrMsg : String := "Factorial not defined for negative numbers"

/-- `factorial(n)` from `src/index.js`, clause for clause:
`if (n < 0) throw ...; if (n === 0 || n === 1) return 1; return n * factorial(n - 1);`.
The thrown error is modelled as `Except.error` carrying the message.
Recursion is on `n - 1`, which terminates on every rational: the ceiling of
`n` strictly decreases while the guards fail. -/
def factorial (n : ℚ) : Except String ℚ :=
  if n < 0 then .error factorialErrMsg
  else if n = 0 ∨ n = 1 then .ok 1
  else
    match factorial (n - 1) with
    | .error e => .error e
    | .ok r => .ok (n * r)
termination_by (⌈n⌉).toNat
decreasing_by
  rename_i h0 h1
  push_neg at h0 h1
  have hpos : 0 < n := lt_of_le_of_ne h0 (Ne.symm h1.1)
  have hc : 0 < ⌈n⌉ := Int.ceil_pos.mpr hpos
  have hsub : ⌈n - 1⌉ = ⌈n⌉ - 1 := by
    have h := Int.ceil_sub_int n (1 : ℤ)
    push_cast at h
    exact h
  omega

/-- `getValueOrDefault(value, defaultValue)` from `src/index.js`:
`return value ?? defaultValue;`. -/
def getValueOrDefault (value defaultValue : JSVal) : JSVal :=
  if value.isNullish then defaultValue else value

/-- `getNestedProperty(obj, prop)` from `src/index.js`:
`return obj?.nested?.[prop];`. Each `?.` short-circuits to `undefined` on a
nullish receiver; otherwise the property access itself runs (`getPropE`). -/
def getNestedProperty (obj : JSVal) (prop : String) : Except String JSVal :=
  if obj.isNullish then .ok .undefined
  else
    match JSVal.getPropE obj "nested" with
    | .error e => .error e
    | .ok nested =>
      if nested.isNullish then .ok .undefined
      else JSVal.getPropE nested prop

/-- The nested-property lookup as the specification words it: absent container,
missing `nested` sub-structure, or missing entry all yield the absent sentinel;
otherwise the stored value is returned. Written from the spec, to be compared
with `getNestedProperty` above. -/
def getNestedPropertySpec (container : JSVal) (propertyName : String) : JSVal :=
  match container with
  | .obj fields =>
    match fields.lookup "nested" with
    | some (.obj nfields) =>
      match nfields.lookup propertyName with
      | some v => v
      | none => .undefined
    | _ => .undefined
  | _ => .undefined

/-! ## Helper lemmas -/

/-- Property access on a non-nullish receiver never throws. -/
lemma JSVal.getPropE_ok (v : JSVal) (key : String) (h : v.isNullish = false) :
    ∃ w, JSVal.getPropE v key = Except.ok w := by
  cases v <;> simp_all [JSVal.getPropE, JSVal.isNullish]

/-- The negative branch of `factorial`. -/
lemma factorial_neg {n : ℚ} (h : n < 0) : factorial n = .error factorialErrMsg := by
  rw [factorial]
  simp [h]

/-- On natural-number inputs, `factorial` computes `Nat.factorial`. -/
lemma factorial_nat (k : ℕ) : factorial (k : ℚ) = .ok ((k.factorial : ℕ) : ℚ) := by
  induction k with
  | zero => rw [factorial]; norm_num
  | succ k ih =>
    cases k with
    | zero => rw [factorial]; norm_num
    | succ j =>
      rw [factorial]
      have h0 : ¬ ((j + 1 + 1 : ℕ) : ℚ) < 0 := by
        rw [not_lt]
        positivity
      have h1 : ¬ (((j + 1 + 1 : ℕ) : ℚ) = 0 ∨ ((j + 1 + 1 : ℕ) : ℚ) = 1) := by
        push_neg
        constructor
        · exact Nat.cast_ne_zero.mpr (by omega)
        · intro h
          rw [Nat.cast_eq_one] at h
          omega
      rw [if_neg h0, if_neg h1]
      have hcast : ((j + 1 + 1 : ℕ) : ℚ) - 1 = ((j + 1 : ℕ) : ℚ) := by
        push_cast
        ring
      rw [hcast, ih]
      dsimp only
      congr 1
      have hfs : (j + 1 + 1).factorial = (j + 1 + 1) * (j + 1).factorial :=
        Nat.factorial_succ (j + 1)
      rw [hfs]
      push_cast
      ring

/-- On nonnegative integer inputs, `factorial` succeeds with the mathematical
factorial. -/
lemma factorial_int_nonneg (n : ℤ) (h : 0 ≤ n) :
    factorial (n : ℚ) = .ok ((n.toNat.factorial : ℕ) : ℚ) := by
  have hc : ((n.toNat : ℕ) : ℚ) = (n : ℚ) := by
    exact_mod_cast congrArg (fun z : ℤ => (z : ℚ)) (Int.toNat_of_nonneg h)
  rw [← hc, factorial_nat]

/-- The code's nested-property lookup agrees with the specification's wording:
it never errors and returns exactly the value `getNestedPropertySpec` picks. -/
lemma getNestedProperty_eq_spec (c : JSVal) (p : String) :
    getNestedProperty c p = Except.ok (getNestedPropertySpec c p) := by
  cases c with
  | undefined => rfl
  | null => rfl
  | num q => rfl
  | str s => rfl
  | bool b => rfl
  | obj fields =>
    simp only [getNestedProperty, getNestedPropertySpec, JSVal.isNullish, JSVal.getPropE]
    cases hl : fields.lookup "nested" with
    | none => simp
    | some v =>
      cases v with
      | obj nfields =>
        simp only [Option.getD_some, JSVal.isNullish]
        cases hn : nfields.lookup p with
        | none => simp
        | some w => simp
      | undefined => simp [JSVal.isNullish]
      | null => simp [JSVal.isNullish]
      | num q => simp [JSVal.isNullish, JSVal.getPropE]
      | str s => simp [JSVal.isNullish, JSVal.getPropE]
      | bool b => simp [JSVal.isNullish, JSVal.getPropE]

/-! ## Claim theorems -/

/-- C1: for every integer `n < 0`, `factorial(n)` fails with exactly the message
"Factorial not defined for negative numbers", and negativity is the only
condition under which `factorial` fails on integer input: for `0 ≤ n` it
returns a value. -/
theorem factorial_error_characterization (n : ℤ) :
    (factorial (n : ℚ) = Except.error factorialErrMsg ↔ n < 0)
    ∧ ((factorial (n : ℚ)).isOk = true ↔ 0 ≤ n) := by
  rcases lt_or_le n 0 with h | h
  · have hq : (n : ℚ) < 0 := by exact_mod_cast h
    rw [factorial_neg hq]
    constructor
    · simp [h]
    · simp only [Except.isOk, Except.toBool]
      constructor
      · intro hc
        exact absurd hc (by simp)
      · intro hc
        omega
  · rw [factorial_int_nonneg n h]
    constructor
    · constructor
      · intro hc
        exact absurd hc (by simp)
      · intro hc
        omega
    · simp only [Except.isOk, Except.toBool]
      simp [h]

/-- C2: for every natural number `n`, `factorial(n)` returns the mathematical
factorial of `n`; in particular `factorial(0) = 1`, `factorial(1) = 1`, and
`factorial(5) = 120`. -/
theorem factorial_computes_math :
    (∀ n : ℕ, factorial (n : ℚ) = Except.ok ((n.factorial : ℕ) : ℚ))
    ∧ factorial 0 = Except.ok 1
    ∧ factorial 1 = Except.ok 1
    ∧ factorial 5 = Except.ok 120 := by
  refine ⟨factorial_nat, ?_, ?_, ?_⟩
  · simpa using factorial_nat 0
  · simpa using factorial_nat 1
  · have h5 := factorial_nat 5
    norm_num [Nat.factorial] at h5
    exact h5

/-- C3: `getValueOrDefault` returns the default exactly on the absent sentinels
`null` and `undefined`, and passes every other value through unchanged —
including the falsy-but-present values `0`, the empty string, and `false`. -/
theorem getValueOrDefault_absent_vs_falsy (value defaultValue : JSVal) :
    (getValueOrDefault JSVal.null defaultValue = defaultValue)
    ∧ (getValueOrDefault JSVal.undefined defaultValue = defaultValue)
    ∧ (value ≠ JSVal.null → value ≠ JSVal.undefined →
        getValueOrDefault value defaultValue = value)
    ∧ (getValueOrDefault (JSVal.num 0) defaultValue = JSVal.num 0)
    ∧ (getValueOrDefault (JSVal.str "") defaultValue = JSVal.str "")
    ∧ (getValueOrDefault (JSVal.bool false) defaultValue = JSVal.bool false) := by
  refine ⟨rfl, rfl, ?_, rfl, rfl, rfl⟩
  intro h1 h2
  cases value with
  | null => exact absurd rfl h1
  | undefined => exact absurd rfl h2
  | num q => rfl
  | str s => rfl
  | bool b => rfl
  | obj fields => rfl

/-- C4: `getNestedProperty` returns the absent sentinel when the container is
absent, has no `nested` sub-structure, or that sub-structure lacks the entry;
otherwise it returns the stored value — exactly the behaviour the spec words
as `getNestedPropertySpec` — and it never raises along the way. -/
theorem getNestedProperty_refines_spec :
    (∀ (container : JSVal) (propertyName : String),
        getNestedProperty container propertyName
          = Except.ok (getNestedPropertySpec container propertyName))
    ∧ getNestedProperty (JSVal.obj [("nested", JSVal.obj [("foo", JSVal.str "bar")])]) "foo"
        = Except.ok (JSVal.str "bar")
    ∧ getNestedProperty JSVal.null "foo" = Except.ok JSVal.undefined
    ∧ getNestedProperty (JSVal.obj []) "foo" = Except.ok JSVal.undefined :=
  ⟨fun c p => getNestedProperty_eq_spec c p, rfl, rfl, rfl⟩

/-- C5: on every nonnegative integer input, `factorial` runs to completion and
produces a value (the recursion on `n - 1` bottoms out at the base cases). -/
theorem factorial_terminates_on_nonneg (n : ℤ) (h : 0 ≤ n) :
    ∃ v, factorial (n : ℚ) = Except.ok v :=
  ⟨_, factorial_int_nonneg n h⟩

/-- Witness for C5 at the concrete input 7. -/
theorem factorial_terminates_on_nonneg_witness :
    ∃ v, factorial ((7 : ℤ) : ℚ) = Except.ok v :=
  factorial_terminates_on_nonneg 7 (by decide)

/-- C6: `multiply` is commutative and `0` annihilates it. -/
theorem multiply_comm_and_zero :
    (∀ a b : ℚ, multiply a b = multiply b a) ∧ (∀ a : ℚ, multiply a 0 = 0) := by
  constructor <;> intros <;> unfold multiply <;> ring

/-- C7: `add` is commutative and `0` is a right identity for it. -/
theorem add_comm_and_right_zero :
    (∀ a b : ℚ, add a b = add b a) ∧ (∀ a : ℚ, add a 0 = a) := by
  constructor <;> intros <;> unfold add <;> ring

/-- C8: each of the five library functions is deterministic — its result is a
function of its arguments alone, so two calls on identical inputs return
identical outputs. In this embedding every function is pure by construction,
so determinism is exactly congruence in the arguments. -/
theorem library_functions_deterministic :
    (∀ a₁ a₂ b₁ b₂ : ℚ, a₁ = a₂ → b₁ = b₂ → add a₁ b₁ = add a₂ b₂)
    ∧ (∀ a₁ a₂ b₁ b₂ : ℚ, a₁ = a₂ → b₁ = b₂ → multiply a₁ b₁ = multiply a₂ b₂)
    ∧ (∀ n₁ n₂ : ℚ, n₁ = n₂ → factorial n₁ = factorial n₂)
    ∧ (∀ v₁ v₂ d₁ d₂ : JSVal, v₁ = v₂ → d₁ = d₂ →
        getValueOrDefault v₁ d₁ = getValueOrDefault v₂ d₂)
    ∧ (∀ (o₁ o₂ : JSVal) (p₁ p₂ : String), o₁ = o₂ → p₁ = p₂ →
        getNestedProperty o₁ p₁ = getNestedProperty o₂ p₂) := by
  refine ⟨?_, ?_, ?_, ?_, ?_⟩ <;> intros <;> subst_vars <;> rfl

/-- C9: `getNestedProperty` never throws: on every input it returns a value,
in particular on primitive containers and when the value stored under `nested`
is itself `null` or `undefined`. -/
theorem getNestedProperty_total :
    (∀ (obj : JSVal) (prop : String), ∃ v, getNestedProperty obj prop = Except.ok v)
    ∧ (∀ (q : ℚ) (prop : String),
        getNestedProperty (JSVal.num q) prop = Except.ok JSVal.undefined)
    ∧ (∀ (b : Bool) (prop : String),
        getNestedProperty (JSVal.bool b) prop = Except.ok JSVal.undefined)
    ∧ (∀ prop : String, getNestedProperty (JSVal.obj [("nested", JSVal.null)]) prop
        = Except.ok JSVal.undefined)
    ∧ (∀ prop : String, getNestedProperty (JSVal.obj [("nested", JSVal.undefined)]) prop
        = Except.ok JSVal.undefined) :=
  ⟨fun obj prop => ⟨_, getNestedProperty_eq_spec obj prop⟩,
   fun _ _ => rfl, fun _ _ => rfl, fun _ => rfl, fun _ => rfl⟩

/-- C10: `factorial` rejects every negative number, integer or not, with the
fixed message — the negativity check runs before the base cases. -/
theorem factorial_rejects_all_negatives (n : ℚ) (h : n < 0) :
    factorial n = Except.error factorialErrMsg :=
  factorial_neg h

/-- Witness for C10 at the non-integer input `-1/2`. -/
theorem factorial_rejects_all_negatives_witness :
    factorial (-(1/2) : ℚ) = Except.error factorialErrMsg :=
  factorial_rejects_all_negatives (-(1/2)) (by norm_num)
